import Mathlib

/-!
Shallow embedding of `src/main.py` (a Telegram bot that fetches a random
Met-museum artwork): Python JSON values with Python truthiness, the
caption formatter `format_art_info`, the image chooser `get_best_image_url`,
the fetch pipeline `fetch_json` / `get_random_met_object`, and the two
handlers `get_met_art_item` and `echo`, modelled as action traces.
-/

/-- A single quote character, used by the Python `repr` model. -/
def squote : Char := Char.ofNat 39

/-- JSON values as this program receives them from the Met API: scalars,
lists of image-URL strings (`additionalImages`) and lists of integer ids
(`objectIDs`).  `none` is Python `None` (JSON null). -/
inductive PyValue where
  | none
  | str (s : String)
  | int (n : Int)
  | bool (b : Bool)
  | listStr (xs : List String)
  | listInt (xs : List Int)
deriving DecidableEq, Repr

/-- Python truthiness: `None`, `""`, `0`, `False` and empty lists are falsy;
everything else this program handles is truthy. -/
def PyValue.truthy : PyValue → Bool
  | .none => false
  | .str s => !s.isEmpty
  | .int n => decide (n ≠ 0)
  | .bool b => b
  | .listStr xs => !xs.isEmpty
  | .listInt xs => !xs.isEmpty

/-- Python `repr` of a string: quoted with `'` unless the string contains a
single quote and no double quote, in which case `"` is used; the backslash,
the chosen quote, newline, carriage return and tab are backslash-escaped.
(Python additionally hex-escapes other non-printable characters; the Met
payload strings this program renders carry none.) -/
def pyReprString (s : String) : String :=
  let q : Char := if s.contains squote && !s.contains '"' then '"' else squote
  let body := String.join (s.data.map (fun c =>
    if c = '\\' then "\\\\"
    else if c = q then "\\" ++ String.singleton q
    else if c = '\n' then "\\n"
    else if c = '\r' then "\\r"
    else if c = '\t' then "\\t"
    else String.singleton c))
  String.singleton q ++ body ++ String.singleton q

/-- Python `str(value)` for the values above; a list renders as `repr` of its
elements between brackets, as Python does. -/
def pyStr : PyValue → String
  | .none => "None"
  | .str s => s
  | .int n => toString n
  | .bool b => if b then "True" else "False"
  | .listStr xs => "[" ++ String.intercalate ", " (xs.map pyReprString) ++ "]"
  | .listInt xs => "[" ++ String.intercalate ", " (xs.map toString) ++ "]"

/-- `html.escape` (with its default `quote=True`): `&`, `<`, `>`, `"` and the
single quote become entities. -/
def escapeChar (c : Char) : String :=
  if c = '&' then "&amp;"
  else if c = '<' then "&lt;"
  else if c = '>' then "&gt;"
  else if c = '"' then "&quot;"
  else if c = squote then "&#x27;"
  else String.singleton c

/-- `html.escape` on a whole string, character by character. -/
def escape (s : String) : String := String.join (s.data.map escapeChar)

/-- A JSON object (Python dict) as an association list with the dict's
key-insertion order; a Python dict never holds a key twice. -/
structure MetObject where
  entries : List (String × PyValue)
deriving DecidableEq, Repr

/-- `object_data.get(key)`: the value stored at `key`, or `None` when the key
is absent (first match; a Python dict holds each key once). -/
def MetObject.get (r : MetObject) (key : String) : PyValue :=
  go r.entries
where go : List (String × PyValue) → PyValue
  | [] => PyValue.none
  | (k, v) :: rest => if k = key then v else go rest

/-- Python truthiness of a dict: non-empty. -/
def MetObject.truthy (r : MetObject) : Bool := !r.entries.isEmpty

/-- The fixed, ordered label/key list of the `fields` dict literal in
`format_art_info` (a Python dict literal iterates in insertion order). -/
def fieldSpecs : List (String × String) :=
  [("Title", "title"),
   ("Artist", "artistDisplayName"),
   ("Date", "objectDate"),
   ("Culture", "culture"),
   ("Period", "period"),
   ("Medium", "medium"),
   ("Country", "country")]

/-- The `fields` dict of `format_art_info`: each label paired with
`object_data.get(key)`. -/
def art_fields (object_data : MetObject) : List (String × PyValue) :=
  fieldSpecs.map (fun p => (p.1, object_data.get p.2))

/-- One caption line: `f"<b>{key}</b>: {escape(str(value))}"`. -/
def caption_line (label : String) (value : PyValue) : String :=
  "<b>" ++ label ++ "</b>: " ++ escape (pyStr value)

/-- The `info_lines` comprehension of `format_art_info`: keep the truthy
fields, render each as a caption line. -/
def info_lines (object_data : MetObject) : List String :=
  ((art_fields object_data).filter (fun kv => kv.2.truthy)).map
    (fun kv => caption_line kv.1 kv.2)

/-- The trailing hyperlink `f"\n<a href=\"{object_url}\">View on Met website</a>"`
appended when `objectURL` is truthy; note the URL is interpolated verbatim. -/
def url_line (object_url : PyValue) : String :=
  "\n<a href=" ++ String.singleton '"' ++ pyStr object_url ++
    String.singleton '"' ++ ">View on Met website</a>"

/-- `format_art_info`: the caption lines, plus the website link when
`objectURL` is truthy, joined with newlines. -/
def format_art_info (object_data : MetObject) : String :=
  let lines := info_lines object_data
  let lines :=
    if (object_data.get "objectURL").truthy then
      lines ++ [url_line (object_data.get "objectURL")]
    else lines
  String.intercalate "\n" lines

/-- Python `a or b`: `a` when truthy, else `b`. -/
def pyOr (a b : PyValue) : PyValue := if a.truthy then a else b

/-- `(xs or [None])[0]`: when `xs` is falsy the default `[None]` is indexed,
giving `None`; a truthy list is non-empty, so its first element is returned.
(Indexing a truthy non-list raises in Python; the Met payload's
`additionalImages` is always a list, so that case is outside the model.) -/
def firstOrNone : PyValue → PyValue
  | .listStr (x :: _) => .str x
  | .listInt (x :: _) => .int x
  | _ => PyValue.none

/-- `get_best_image_url`: `primaryImageSmall or primaryImage or
(additionalImages or [None])[0]`. -/
def get_best_image_url (object_data : MetObject) : PyValue :=
  pyOr (object_data.get "primaryImageSmall")
    (pyOr (object_data.get "primaryImage")
      (firstOrNone (object_data.get "additionalImages")))

/-! ## The fetch pipeline -/

/-- What the single GET attempt inside `fetch_json` comes to, seen at the
granularity of the code's `try`/`except`: either a 2xx response whose JSON
body parsed, or one of the exception classes the `except` clause catches —
`raise_for_status` on an error status raises `ClientResponseError` (an
`aiohttp.ClientError`), transport problems (DNS, connect, TLS) raise other
`aiohttp.ClientError`s, and `asyncio.TimeoutError` covers timeouts. -/
inductive FetchOutcome where
  | ok (body : MetObject)
  | httpStatusError (code : Nat)
  | networkError
  | timeoutError
deriving DecidableEq, Repr

/-- One outbound GET request: URL plus query parameters. -/
structure Request where
  url : String
  params : List (String × String)
deriving DecidableEq, Repr

/-- The handler's environment: what each GET attempt comes to, which list
element `random.choice` picks, and whether `reply_photo` raises for a given
photo value and caption. -/
structure Env where
  transport : String → List (String × String) → FetchOutcome
  pick : List Int → Int
  photoSendFails : PyValue → String → Bool

/-- `fetch_json`: one GET attempt; a 2xx JSON body is returned, every caught
exception is logged and mapped to `None`.  The second component records the
single request issued. -/
def fetch_json (env : Env) (url : String) (params : List (String × String)) :
    Option MetObject × List Request :=
  (match env.transport url params with
   | .ok body => some body
   | .httpStatusError _ => Option.none
   | .networkError => Option.none
   | .timeoutError => Option.none,
   [Request.mk url params])

def MET_BASE_URL : String := "https://collectionapi.metmuseum.org/public/collection/v1"

/-- The fixed search filter of `get_random_met_object`. -/
def search_params : List (String × String) :=
  [("hasImages", "true"), ("isPublicDomain", "true"), ("q", "*")]

def searchURL : String := MET_BASE_URL ++ "/search"

/-- `f"{MET_BASE_URL}/objects/{random_id}"`. -/
def objectsURL (id : Int) : String := MET_BASE_URL ++ "/objects/" ++ toString id

/-- The guard `not search_data or not search_data.get('objectIDs')` negated:
the search payload is a truthy (non-empty) dict whose `objectIDs` value is
truthy. -/
def searchUsable : Option MetObject → Bool
  | Option.none => false
  | some d => d.truthy && (d.get "objectIDs").truthy

/-- `search_data['objectIDs']` handed to `random.choice`: the Met search
payload's id list (`random.choice` on a non-list raises in Python and is
outside the model). -/
def asIntList : PyValue → List Int
  | .listInt xs => xs
  | _ => []

/-- `get_random_met_object`: search, bail out on a falsy result or falsy
`objectIDs`, otherwise pick a random id and fetch its detail record,
returning whatever that fetch yields.  The second component is the list of
GET requests issued, in order. -/
def get_random_met_object (env : Env) : Option MetObject × List Request :=
  let search := fetch_json env searchURL search_params
  if searchUsable search.1 then
    let random_id := env.pick (asIntList ((search.1.getD (MetObject.mk [])).get "objectIDs"))
    let detail := fetch_json env (objectsURL random_id) []
    (detail.1, search.2 ++ detail.2)
  else
    (Option.none, search.2)

/-! ## The handlers, as action traces -/

/-- One observable action of a handler, in program order: a chat presence
indicator, a GET request, a photo reply attempt, a text reply, or a sleep. -/
inductive BotAction where
  | chatAction (action : String)
  | httpGet (url : String) (params : List (String × String))
  | replyPhoto (photo : PyValue) (caption : String) (parseMode : Option String)
  | replyText (text : String) (parseMode : Option String)
  | sleep (milliseconds : Nat)
deriving DecidableEq, Repr

/-- `"🚫 Couldn't fetch artwork. Please try again later."` -/
def failText : String :=
  "🚫 Couldn" ++ String.singleton squote ++ "t fetch artwork. Please try again later."

/-- `get_met_art_item`: presence indicator, the selector's fetches, then —
on a falsy selector result — the generic failure text; otherwise the photo
with HTML caption, falling back to a text with the raw URL and the caption
when the photo send raises, or, with no truthy image URL, a text with the
no-image notice and the caption. -/
def get_met_art_item (env : Env) : List BotAction :=
  let pre := [BotAction.chatAction "upload_photo"]
  let fetched := get_random_met_object env
  let httpActs := fetched.2.map (fun r => BotAction.httpGet r.url r.params)
  match fetched.1 with
  | Option.none => pre ++ httpActs ++ [BotAction.replyText failText Option.none]
  | some met_object =>
    if !met_object.truthy then
      pre ++ httpActs ++ [BotAction.replyText failText Option.none]
    else
      let image_url := get_best_image_url met_object
      let caption := format_art_info met_object
      if image_url.truthy then
        if env.photoSendFails image_url caption then
          pre ++ httpActs ++
            [BotAction.replyPhoto image_url caption (some "HTML"),
             BotAction.replyText
               ("🖼️ Image available at: " ++ pyStr image_url ++ "\n\n" ++ caption)
               (some "HTML")]
        else
          pre ++ httpActs ++ [BotAction.replyPhoto image_url caption (some "HTML")]
      else
        pre ++ httpActs ++
          [BotAction.replyText ("❌ No image available for this artwork\n\n" ++ caption)
            (some "HTML")]

/-- `echo`: typing indicator, half-second sleep, then reply with the
received text unchanged. -/
def echo (messageText : String) : List BotAction :=
  [BotAction.chatAction "typing", BotAction.sleep 500,
   BotAction.replyText messageText Option.none]

/-! ## Spec-side definitions (the spec's words, for refinement statements) -/

/-- The spec's "present with a non-empty value" for a field: neither absent
(`None`) nor the empty string. -/
def present_nonempty (v : PyValue) : Bool :=
  decide (v ≠ PyValue.none) && decide (v ≠ PyValue.str "")

/-- The spec's caption body: one line per field of the fixed ordered list
whose value is present and non-empty, each rendered bold-label-colon-escaped-value. -/
def caption_lines_words (r : MetObject) : List String :=
  (fieldSpecs.filter (fun p => present_nonempty (r.get p.2))).map
    (fun p => caption_line p.1 (r.get p.2))

/-- The code's caption body re-expressed over the field list: one line per
field with a truthy value, in fixed list order. -/
def caption_lines_code (r : MetObject) : List String :=
  (fieldSpecs.filter (fun p => (r.get p.2).truthy)).map
    (fun p => caption_line p.1 (r.get p.2))

/-- Occurrence count of `pat` in a character list (overlapping starts all
counted; the patterns used below make overlap impossible). -/
def countOccs (pat : List Char) : List Char → Nat
  | [] => 0
  | c :: rest => (if pat.isPrefixOf (c :: rest) then 1 else 0) + countOccs pat rest

/-- Occurrence count of `pat` in `s`. -/
def occurrences (pat s : String) : Nat := countOccs pat.data s.data

/-! ## Concrete records and environments used by witnesses and counterexamples -/

/-- A record whose key order differs from the fixed caption order and whose
`objectDate` is the empty string. -/
def recC1 : MetObject := MetObject.mk
  [("culture", PyValue.str "Greek"), ("title", PyValue.str "Vase"),
   ("objectDate", PyValue.str "")]

/-- An `objectURL` value carrying markup: `x"><script>alert(1)</script>`. -/
def evilURL : String := "x" ++ String.singleton '"' ++ "><script>alert(1)</script>"

/-- A record whose `objectURL` carries markup. -/
def recC2 : MetObject := MetObject.mk
  [("title", PyValue.str "T"), ("objectURL", PyValue.str evilURL)]

/-- A record with a present-but-empty `primaryImageSmall` and a non-empty
`primaryImage`. -/
def recC3 : MetObject := MetObject.mk
  [("primaryImageSmall", PyValue.str ""), ("primaryImage", PyValue.str "http://img/p.jpg")]

/-- A record with no image fields at all. -/
def recW3 : MetObject := MetObject.mk [("title", PyValue.str "Vase")]

/-- An environment in which every GET fails at the network level. -/
def envC4 : Env :=
  Env.mk (fun _ _ => FetchOutcome.networkError) (fun xs => xs.headD 0) (fun _ _ => false)

/-- An environment in which every GET times out. -/
def envC5 : Env :=
  Env.mk (fun _ _ => FetchOutcome.timeoutError) (fun xs => xs.headD 0) (fun _ _ => false)

/-- An environment in which the search GET times out. -/
def envC6 : Env :=
  Env.mk (fun _ _ => FetchOutcome.timeoutError) (fun xs => xs.headD 0) (fun _ _ => false)

/-- A detail record with a title and a small primary image. -/
def recC7 : MetObject := MetObject.mk
  [("title", PyValue.str "Starry Night"), ("primaryImageSmall", PyValue.str "http://img/1.jpg")]

/-- An environment whose search yields ids `[101, 202]`, whose detail fetch
for id 101 yields `recC7`, and whose photo send always raises. -/
def envC7 : Env := Env.mk
  (fun url _ =>
    if url = searchURL then
      FetchOutcome.ok (MetObject.mk [("objectIDs", PyValue.listInt [101, 202])])
    else if url = objectsURL 101 then FetchOutcome.ok recC7
    else FetchOutcome.networkError)
  (fun xs => xs.headD 0)
  (fun _ _ => true)

/-- A detail record with a title and no image fields. -/
def recC8 : MetObject := MetObject.mk [("title", PyValue.str "Starry Night")]

/-- An environment whose search yields id `[7]` and whose detail fetch for
id 7 yields the imageless `recC8`. -/
def envC8 : Env := Env.mk
  (fun url _ =>
    if url = searchURL then
      FetchOutcome.ok (MetObject.mk [("objectIDs", PyValue.listInt [7])])
    else if url = objectsURL 7 then FetchOutcome.ok recC8
    else FetchOutcome.networkError)
  (fun xs => xs.headD 0)
  (fun _ _ => false)

/-! ## Shared helper lemmas -/

lemma filter_map_factor (r : MetObject) (l : List (String × String)) :
    (((l.map (fun p => (p.1, r.get p.2))).filter (fun kv => kv.2.truthy)).map
      (fun kv => caption_line kv.1 kv.2)) =
    (l.filter (fun p => (r.get p.2).truthy)).map
      (fun p => caption_line p.1 (r.get p.2)) := by
  induction l with
  | nil => rfl
  | cons p t ih =>
    cases hp : (r.get p.2).truthy <;>
      simp [List.map_cons, List.filter_cons, hp, ih]

/-- The comprehension of `format_art_info` equals the per-field filter over
the fixed ordered list. -/
lemma info_lines_eq (r : MetObject) : info_lines r = caption_lines_code r := by
  unfold info_lines art_fields caption_lines_code
  exact filter_map_factor r fieldSpecs

/-- On absent-or-string field values, Python truthiness coincides with the
spec's "present and non-empty". -/
lemma truthy_eq_present_nonempty (v : PyValue)
    (h : v = PyValue.none ∨ ∃ s, v = PyValue.str s) :
    v.truthy = present_nonempty v := by
  rcases h with h | ⟨s, h⟩ <;> subst h
  · rfl
  · rw [Bool.eq_iff_iff]
    simp [PyValue.truthy, present_nonempty, String.isEmpty_iff, Bool.eq_false_iff]

/-- `fetch_json` records exactly the one request it issues. -/
lemma fetch_json_snd (env : Env) (url : String) (params : List (String × String)) :
    (fetch_json env url params).2 = [Request.mk url params] := rfl

/-- `format_art_info` splits into the caption lines plus the optional
website-link tail. -/
lemma format_art_info_split (r : MetObject) :
    format_art_info r = String.intercalate "\n"
      (info_lines r ++
        (if (r.get "objectURL").truthy then [url_line (r.get "objectURL")] else [])) := by
  unfold format_art_info
  cases h : (r.get "objectURL").truthy <;> simp [h]

/-! ## Claims -/

/-- Claim C1: for every artwork record with at least one present, non-empty
field among the fixed list, `format_art_info` emits exactly one
bold-label-colon-escaped-value line per present non-empty field, in the
fixed order of `fieldSpecs` (independent of the record's own key order),
none for an absent or empty field, followed only by the optional website
link. -/
theorem claim_C1_caption_fixed_order (r : MetObject)
    (hTyped : ∀ p ∈ fieldSpecs, r.get p.2 = PyValue.none ∨ ∃ s, r.get p.2 = PyValue.str s)
    (_hSome : ∃ p ∈ fieldSpecs, present_nonempty (r.get p.2) = true) :
    info_lines r = caption_lines_words r
    ∧ format_art_info r = String.intercalate "\n"
        (caption_lines_words r ++
          (if (r.get "objectURL").truthy then [url_line (r.get "objectURL")] else []))
    ∧ ∀ r₂ : MetObject, (∀ k, r₂.get k = r.get k) → format_art_info r₂ = format_art_info r := by
  have hline : info_lines r = caption_lines_words r := by
    rw [info_lines_eq]
    unfold caption_lines_code caption_lines_words
    rw [List.filter_congr (fun p hp => truthy_eq_present_nonempty _ (hTyped p hp))]
  refine ⟨hline, ?_, ?_⟩
  · rw [← hline]; exact format_art_info_split r
  · intro r₂ h
    unfold format_art_info info_lines art_fields url_line
    simp only [h]

/-- Claim C1 witness: a concrete record, stored in a key order unlike the
caption order and with an empty `objectDate`, captions as Title then
Culture, the empty field dropped. -/
theorem claim_C1_caption_fixed_order_witness :
    info_lines recC1 = caption_lines_words recC1
    ∧ caption_lines_words recC1 = ["<b>Title</b>: Vase", "<b>Culture</b>: Greek"] :=
  ⟨(claim_C1_caption_fixed_order recC1
      (by
        intro p hp
        fin_cases hp
        · exact Or.inr ⟨"Vase", rfl⟩
        · exact Or.inl rfl
        · exact Or.inr ⟨"", rfl⟩
        · exact Or.inr ⟨"Greek", rfl⟩
        · exact Or.inl rfl
        · exact Or.inl rfl
        · exact Or.inl rfl)
      (by decide)).1, by decide⟩

/-- Claim C2 counterexample: with `objectURL` set to
`x"><script>alert(1)</script>`, the produced text contains the raw
`<script>` markup once, while the escaped form of that value contains it
not at all — the URL is interpolated unescaped. -/
theorem claim_C2_counterexample :
    occurrences "<script>" (format_art_info recC2) = 1
    ∧ occurrences "<script>" (escape evilURL) = 0
    ∧ format_art_info recC2 =
        "<b>Title</b>: T\n\n<a href=" ++ String.singleton '"' ++ "x" ++
          String.singleton '"' ++ "><script>alert(1)</script>" ++
          String.singleton '"' ++ ">View on Met website</a>" := by decide

/-- Claim C2 (amended): the seven caption field values are each escaped
before interpolation, but the `objectURL` value is interpolated verbatim —
unescaped — into the trailing hyperlink. -/
theorem claim_C2_field_values_escaped (r : MetObject) :
    info_lines r = caption_lines_code r
    ∧ ((r.get "objectURL").truthy = true →
        format_art_info r = String.intercalate "\n"
          (caption_lines_code r ++ [url_line (r.get "objectURL")])) := by
  refine ⟨info_lines_eq r, fun h => ?_⟩
  rw [format_art_info_split r, h, info_lines_eq]
  simp

/-- Claim C2 witness: the amended statement applied to the markup-carrying
record. -/
theorem claim_C2_field_values_escaped_witness :
    format_art_info recC2 = String.intercalate "\n"
      (caption_lines_code recC2 ++ [url_line (recC2.get "objectURL")]) :=
  (claim_C2_field_values_escaped recC2).2 (by decide)

/-- Claim C3 counterexample: a present, non-null but empty
`primaryImageSmall` is skipped — the fallback returns `primaryImage`, not
the non-null small image the claim demands. -/
theorem claim_C3_counterexample :
    recC3.get "primaryImageSmall" ≠ PyValue.none
    ∧ get_best_image_url recC3 ≠ recC3.get "primaryImageSmall"
    ∧ get_best_image_url recC3 = PyValue.str "http://img/p.jpg" := by decide

/-- Claim C3 (amended): `get_best_image_url` returns `primaryImageSmall` if
truthy (non-null and non-empty), else `primaryImage` if truthy, else the
first entry of a non-empty `additionalImages` list, and returns `None`
exactly when all three levels are absent or empty. -/
theorem claim_C3_image_fallback (r : MetObject)
    (hAdd : r.get "additionalImages" = PyValue.none ∨
      ∃ xs, r.get "additionalImages" = PyValue.listStr xs) :
    ((r.get "primaryImageSmall").truthy = true →
      get_best_image_url r = r.get "primaryImageSmall")
    ∧ ((r.get "primaryImageSmall").truthy = false →
        (r.get "primaryImage").truthy = true →
        get_best_image_url r = r.get "primaryImage")
    ∧ (∀ x xs, (r.get "primaryImageSmall").truthy = false →
        (r.get "primaryImage").truthy = false →
        r.get "additionalImages" = PyValue.listStr (x :: xs) →
        get_best_image_url r = PyValue.str x)
    ∧ (get_best_image_url r = PyValue.none ↔
        (r.get "primaryImageSmall").truthy = false ∧
        (r.get "primaryImage").truthy = false ∧
        (r.get "additionalImages").truthy = false) := by
  refine ⟨?_, ?_, ?_, ?_, ?_⟩
  · intro h1; simp [get_best_image_url, pyOr, h1]
  · intro h1 h2; simp [get_best_image_url, pyOr, h1, h2]
  · intro x xs h1 h2 h3; simp [get_best_image_url, pyOr, h1, h2, h3, firstOrNone]
  · intro h
    cases h1 : (r.get "primaryImageSmall").truthy
    · cases h2 : (r.get "primaryImage").truthy
      · refine ⟨rfl, rfl, ?_⟩
        simp [get_best_image_url, pyOr, h1, h2] at h
        rcases hAdd with ha | ⟨xs, ha⟩
        · rw [ha]; rfl
        · rcases xs with _ | ⟨x, xs⟩
          · rw [ha]; rfl
          · rw [ha] at h; simp [firstOrNone] at h
      · exfalso
        simp [get_best_image_url, pyOr, h1, h2] at h
        rw [h] at h2; exact absurd h2 (by simp [PyValue.truthy])
    · exfalso
      simp [get_best_image_url, pyOr, h1] at h
      rw [h] at h1; exact absurd h1 (by simp [PyValue.truthy])
  · rintro ⟨h1, h2, h3⟩
    simp [get_best_image_url, pyOr, h1, h2]
    rcases hAdd with ha | ⟨xs, ha⟩
    · rw [ha]; rfl
    · rcases xs with _ | ⟨x, xs⟩
      · rw [ha]; rfl
      · rw [ha] at h3; simp [PyValue.truthy] at h3

/-- Claim C3 witness: on the imageless record every fallback level is
absent, so the amended biconditional yields `None`. -/
theorem claim_C3_image_fallback_witness :
    get_best_image_url recW3 = PyValue.none ↔
      ((recW3.get "primaryImageSmall").truthy = false ∧
       (recW3.get "primaryImage").truthy = false ∧
       (recW3.get "additionalImages").truthy = false) :=
  (claim_C3_image_fallback recW3 (Or.inl (by decide))).2.2.2

/-- Claim C4: when the search fetch yields an absent or falsy result or a
falsy `objectIDs`, the selector returns `None` having issued only the
search request; only a usable search leads to the single detail request,
and a usable `objectIDs` id list is non-empty. -/
theorem claim_C4_no_detail_after_empty_search (env : Env) :
    (searchUsable (fetch_json env searchURL search_params).1 = false →
      get_random_met_object env = (Option.none, [Request.mk searchURL search_params]))
    ∧ (∀ d, (fetch_json env searchURL search_params).1 = some d →
        searchUsable (some d) = true →
        (get_random_met_object env).2 =
          [Request.mk searchURL search_params,
           Request.mk (objectsURL (env.pick (asIntList (d.get "objectIDs")))) []]
        ∧ (get_random_met_object env).1 =
          (fetch_json env (objectsURL (env.pick (asIntList (d.get "objectIDs")))) []).1)
    ∧ (∀ d xs, searchUsable (some d) = true →
        d.get "objectIDs" = PyValue.listInt xs → xs ≠ []) := by
  refine ⟨?_, ?_, ?_⟩
  · intro h
    simp only [get_random_met_object]
    split
    · next hcond => rw [h] at hcond; simp at hcond
    · rw [fetch_json_snd]
  · intro d hd hu
    refine ⟨?_, ?_⟩ <;>
    · simp only [get_random_met_object]
      split
      · next hcond => simp [hd, fetch_json_snd]
      · next hcond => rw [hd] at hcond; exact absurd hu hcond
  · intro d xs hu hxs hnil
    subst hnil
    simp [searchUsable, hxs, PyValue.truthy] at hu


/-- Claim C4 witness: with the search GET failing at the network level, the
selector returns `None` after issuing only the search request. -/
theorem claim_C4_no_detail_after_empty_search_witness :
    get_random_met_object envC4 = (Option.none, [Request.mk searchURL search_params]) :=
  (claim_C4_no_detail_after_empty_search envC4).1 (by decide)

/-- Claim C5: `fetch_json` issues exactly one request (no retry), returns
the parsed body on success, and maps an HTTP error status, a network-level
failure and a timeout all to the same absence value `None` — the caller
always receives a value, never an exception, and `None` appears exactly on
the non-success outcomes. -/
theorem claim_C5_fetch_failure_uniform (env : Env) (url : String)
    (params : List (String × String)) :
    (fetch_json env url params).2 = [Request.mk url params]
    ∧ (∀ b, env.transport url params = FetchOutcome.ok b →
        (fetch_json env url params).1 = some b)
    ∧ (∀ code, env.transport url params = FetchOutcome.httpStatusError code →
        (fetch_json env url params).1 = Option.none)
    ∧ (env.transport url params = FetchOutcome.networkError →
        (fetch_json env url params).1 = Option.none)
    ∧ (env.transport url params = FetchOutcome.timeoutError →
        (fetch_json env url params).1 = Option.none)
    ∧ ((fetch_json env url params).1 = Option.none ↔
        ∀ b, env.transport url params ≠ FetchOutcome.ok b) := by
  cases h : env.transport url params <;> simp [fetch_json, h]

/-- Claim C5 witness: a timed-out GET comes back as `None`. -/
theorem claim_C5_fetch_failure_uniform_witness :
    (fetch_json envC5 "https://example.org" []).1 = Option.none :=
  (claim_C5_fetch_failure_uniform envC5 "https://example.org" []).2.2.2.2.1 rfl

/-- Claim C6: whenever the selector yields `None` — whatever failed — the
art handler's trace is exactly the presence indicator, the selector's own
GET requests, and the single generic failure text: no photo send and no
further network call, with the same message for every cause. -/
theorem claim_C6_generic_failure_message (env : Env)
    (h : (get_random_met_object env).1 = Option.none) :
    get_met_art_item env =
      [BotAction.chatAction "upload_photo"] ++
      (get_random_met_object env).2.map (fun r => BotAction.httpGet r.url r.params) ++
      [BotAction.replyText failText Option.none] := by
  simp only [get_met_art_item, h]

/-- Claim C6 witness: with the search timing out, the handler's whole trace
is indicator, search GET, failure text. -/
theorem claim_C6_generic_failure_message_witness :
    get_met_art_item envC6 =
      [BotAction.chatAction "upload_photo",
       BotAction.httpGet searchURL search_params,
       BotAction.replyText failText Option.none] :=
  (claim_C6_generic_failure_message envC6 (by decide)).trans (by decide)

/-- Claim C7: with a truthy artwork record, a truthy image URL and a
failing photo send, the handler's trace ends with the attempted photo reply
followed by the fallback text carrying the raw image URL and the caption. -/
theorem claim_C7_photo_send_fallback (env : Env) (d : MetObject)
    (hres : (get_random_met_object env).1 = some d)
    (htr : d.truthy = true)
    (himg : (get_best_image_url d).truthy = true)
    (hfail : env.photoSendFails (get_best_image_url d) (format_art_info d) = true) :
    get_met_art_item env =
      [BotAction.chatAction "upload_photo"] ++
      (get_random_met_object env).2.map (fun r => BotAction.httpGet r.url r.params) ++
      [BotAction.replyPhoto (get_best_image_url d) (format_art_info d) (some "HTML"),
       BotAction.replyText
         ("🖼️ Image available at: " ++ pyStr (get_best_image_url d) ++ "\n\n" ++
           format_art_info d)
         (some "HTML")] := by
  simp [get_met_art_item, hres, htr, himg, hfail]

/-- Claim C7 witness: a concrete run whose photo send raises falls back to
the raw-URL-plus-caption text. -/
theorem claim_C7_photo_send_fallback_witness :
    get_met_art_item envC7 =
      [BotAction.chatAction "upload_photo",
       BotAction.httpGet searchURL search_params,
       BotAction.httpGet (objectsURL 101) [],
       BotAction.replyPhoto (PyValue.str "http://img/1.jpg")
         "<b>Title</b>: Starry Night" (some "HTML"),
       BotAction.replyText
         ("🖼️ Image available at: http://img/1.jpg\n\n<b>Title</b>: Starry Night")
         (some "HTML")] :=
  (claim_C7_photo_send_fallback envC7 recC7 (by decide) (by decide) (by decide)
    (by decide)).trans (by decide)

/-- Claim C8 counterexample: on a concrete imageless artwork the handler's
reply is the no-image notice, a blank line, then the caption — not the
caption alone. -/
theorem claim_C8_counterexample :
    get_met_art_item envC8 =
      [BotAction.chatAction "upload_photo",
       BotAction.httpGet searchURL search_params,
       BotAction.httpGet (objectsURL 7) [],
       BotAction.replyText
         ("❌ No image available for this artwork\n\n" ++ format_art_info recC8)
         (some "HTML")]
    ∧ ("❌ No image available for this artwork\n\n" ++ format_art_info recC8)
        ≠ format_art_info recC8 := by decide

/-- Claim C8 (amended): with a truthy record and no truthy image URL, the
handler sends a single text whose body is the fixed notice
`❌ No image available for this artwork`, a blank line, then the caption. -/
theorem claim_C8_no_image_text (env : Env) (d : MetObject)
    (hres : (get_random_met_object env).1 = some d)
    (htr : d.truthy = true)
    (himg : (get_best_image_url d).truthy = false) :
    get_met_art_item env =
      [BotAction.chatAction "upload_photo"] ++
      (get_random_met_object env).2.map (fun r => BotAction.httpGet r.url r.params) ++
      [BotAction.replyText
        ("❌ No image available for this artwork\n\n" ++ format_art_info d)
        (some "HTML")] := by
  simp [get_met_art_item, hres, htr, himg]

/-- Claim C8 witness: the amended statement applied to the concrete
imageless run. -/
theorem claim_C8_no_image_text_witness :
    get_met_art_item envC8 =
      [BotAction.chatAction "upload_photo"] ++
      (get_random_met_object envC8).2.map (fun r => BotAction.httpGet r.url r.params) ++
      [BotAction.replyText
        ("❌ No image available for this artwork\n\n" ++ format_art_info recC8)
        (some "HTML")] :=
  claim_C8_no_image_text envC8 recC8 (by decide) (by decide) (by decide)

/-- Claim C9: the echo handler's trace is exactly typing indicator, the
fixed half-second delay, then one text reply, and any text reply it emits
is character-for-character the received text. -/
theorem claim_C9_echo_exact (t : String) :
    echo t = [BotAction.chatAction "typing", BotAction.sleep 500,
      BotAction.replyText t Option.none]
    ∧ (∀ s pm, BotAction.replyText s pm ∈ echo t → s = t) := by
  refine ⟨rfl, ?_⟩
  intro s pm hmem
  simp [echo] at hmem
  exact hmem.1

/-- Claim C9 witness: echoing `hello` replies `hello`. -/
theorem claim_C9_echo_exact_witness :
    echo "hello" = [BotAction.chatAction "typing", BotAction.sleep 500,
      BotAction.replyText "hello" Option.none] :=
  (claim_C9_echo_exact "hello").1

/-- Claim C10: presence is decided by Python truthiness — `None`, the empty
string, `0`, `False` and the empty list are all dropped by the caption
formatter, every kept value is stringified then escaped, and the image
fallback skips a falsy (absent or empty) `primaryImageSmall`,
`primaryImage` or `additionalImages` level. -/
theorem claim_C10_truthiness_semantics (r : MetObject) :
    (PyValue.none.truthy = false ∧ (PyValue.str "").truthy = false ∧
     (PyValue.int 0).truthy = false ∧ (PyValue.bool false).truthy = false ∧
     (PyValue.listStr []).truthy = false ∧ (PyValue.listInt []).truthy = false)
    ∧ info_lines r = caption_lines_code r
    ∧ get_best_image_url r =
        (if (r.get "primaryImageSmall").truthy then r.get "primaryImageSmall"
         else if (r.get "primaryImage").truthy then r.get "primaryImage"
         else firstOrNone (r.get "additionalImages")) := by
  refine ⟨by decide, info_lines_eq r, ?_⟩
  unfold get_best_image_url pyOr
  cases h1 : (r.get "primaryImageSmall").truthy <;>
    cases h2 : (r.get "primaryImage").truthy <;> simp [h1, h2]
